import Mathlib

/-!
Verification of the AWS IoT bridge in `src/aws_iot.rs`: the shadow
synchronization engine (`post_iot_publish_msg`, `shadow_version_compare`,
`mqtt_dedicated_handle_iot`), the dedicated-connection retry loop
(`mqtt_dedicated_create_start`), the outbound command translation
(`post_ipc_msg`, `TopicType::to_string`), the provisioning subscription
sequence (`mqtt_provision_task`) and the credential save/reload pair
(`AwsIotKeyCertificate::save` / `reload`).

Modeling conventions:
* JSON values (`serde_json::Value`) are modeled by the inductive `Json`.
  Object fields are an association list with distinct keys; JSON number
  literals are modeled as integers (the shadow documents exchanged here
  carry integral `version` and `timestamp` numbers, and all other numeric
  content is handled opaquely by the code).
* A Rust `String` that the code hands to `serde_json::from_str` is modeled
  by `JText`: the raw characters together with the parse result
  (`parsed = none` when the text is not valid JSON).  Texts travel through
  the system wholesale, so the bundled parse result is coherent along every
  run of the engine.
* Channels (`mpsc`, `oneshot`) and the key/value store requests are modeled
  as reliable: a send/receive never fails.  The code's handling of channel
  failures is noted at each definition it affects.
* `DateTime<Utc>` values are modeled as natural-number timestamps; only
  their identity matters to the verified claims.
-/

/-- A JSON value, modeling `serde_json::Value`. -/
inductive Json where
  | null : Json
  | bool (b : Bool) : Json
  | num (n : Int) : Json
  | str (s : String) : Json
  | arr (elems : List Json) : Json
  | obj (fields : List (String × Json)) : Json

/-- A Rust `String` observed through its raw characters and its
`serde_json` parse result (`none` when the text is not valid JSON). -/
structure JText where
  raw : String
  parsed : Option Json

/-- Field lookup in a JSON object (`serde_json::Map` access by key). -/
def jsonField (fields : List (String × Json)) (key : String) : Option Json :=
  (fields.find? (fun f => f.1 == key)).map (fun f => f.2)

/-- serde's handling of an `Option<serde_json::Value>` struct field:
a missing field or an explicit `null` deserializes to `None`. -/
def optValueField (fields : List (String × Json)) (key : String) : Option Json :=
  match jsonField fields key with
  | some Json.null => none
  | some v => some v
  | none => none

/-- Struct `AwsIotShadowAcceptState` (aws_iot.rs lines 671-677). -/
structure AwsIotShadowAcceptState where
  desired : Option Json
  reported : Option Json
  delta : Option Json

/-- Struct `AwsIotShadowAcceptMetadata` (aws_iot.rs lines 679-685). -/
structure AwsIotShadowAcceptMetadata where
  desired : Option Json
  reported : Option Json
  delta : Option Json

/-- Struct `AwsIotShadowAccept` (aws_iot.rs lines 687-695).  `version` is a `u16`,
modeled as a `Nat` kept below 2^16 by the deserializer; `timestamp` is the
`ts_seconds` integer. -/
structure AwsIotShadowAccept where
  state : AwsIotShadowAcceptState
  metadata : AwsIotShadowAcceptMetadata
  version : Nat
  timestamp : Int

/-- Derived `Deserialize` for `AwsIotShadowAcceptState`: the value must be a
JSON object; each of the three `Option<Value>` fields is `None` when missing
or null. -/
def parseAcceptState : Json → Option AwsIotShadowAcceptState
  | Json.obj fields =>
    some { desired := optValueField fields "desired",
           reported := optValueField fields "reported",
           delta := optValueField fields "delta" }
  | _ => none

/-- Derived `Deserialize` for `AwsIotShadowAcceptMetadata`. -/
def parseAcceptMetadata : Json → Option AwsIotShadowAcceptMetadata
  | Json.obj fields =>
    some { desired := optValueField fields "desired",
           reported := optValueField fields "reported",
           delta := optValueField fields "delta" }
  | _ => none

/-- Deserializing the `u16` field `version`: the value must be an integral
JSON number in `[0, 2^16)`. -/
def parseVersionU16 : Option Json → Option Nat
  | some (Json.num n) => if 0 ≤ n ∧ n < 65536 then some n.toNat else none
  | _ => none

/-- Deserializing the `ts_seconds` field `timestamp`: an integral number of
seconds. -/
def parseTimestamp : Option Json → Option Int
  | some (Json.num n) => some n
  | _ => none

/-- Derived `Deserialize` for `AwsIotShadowAccept`: a JSON object whose four
required fields all deserialize; unknown fields are ignored (serde default). -/
def awsIotShadowAcceptOfJson : Json → Option AwsIotShadowAccept
  | Json.obj fields => do
    let st ← (jsonField fields "state").bind (fun v => parseAcceptState v)
    let md ← (jsonField fields "metadata").bind (fun v => parseAcceptMetadata v)
    let ver ← parseVersionU16 (jsonField fields "version")
    let ts ← parseTimestamp (jsonField fields "timestamp")
    pure { state := st, metadata := md, version := ver, timestamp := ts }
  | _ => none

/-- The call `serde_json::from_str::<AwsIotShadowAccept>` applied to a text. -/
def parseShadowText (t : JText) : Option AwsIotShadowAccept :=
  t.parsed.bind awsIotShadowAcceptOfJson

/-- Splitting a character list at every occurrence of `sep` (the semantics
of Rust's `str::split(char)`): `n` separators yield `n + 1` pieces, with
empty pieces for leading, trailing, or adjacent separators. -/
def splitCharList (sep : Char) : List Char → List (List Char)
  | [] => [[]]
  | c :: rest =>
    match splitCharList sep rest with
    | [] => [[]]
    | h :: t => if c = sep then [] :: h :: t else (c :: h) :: t

/-- Rust's `str::split(sep)` collected into a list. -/
def rustSplit (sep : Char) (s : String) : List String :=
  (splitCharList sep s.toList).map (fun cs => String.mk cs)

/-- The flattened local store key of `post_iot_publish_msg` (aws_iot.rs lines
735-739): split the topic on `'/'`, skip three segments, take three segments,
and fold them onto the root `"aws/kap"` with `/` separators. -/
def iotSubTopic (topic : String) : String :=
  (((rustSplit '/' topic).drop 3).take 3).foldl
    (fun sum i => sum ++ "/" ++ i) "aws/kap"

/-- Whether `needle` occurs as a contiguous run inside the character list. -/
def occursList (needle : List Char) : List Char → Bool
  | [] => needle.isEmpty
  | c :: rest => needle.isPrefixOf (c :: rest) || occursList needle rest

/-- Rust's `topic.find(pat).is_some()`: substring containment. -/
def topicFind (topic pat : String) : Bool :=
  occursList pat.toList topic.toList

/-- The Credential Store seen through its `DbCommand::Get`/`Set` interface:
a map from flattened keys to the last raw payload written. -/
abbrev Store := String → Option JText

/-- Request `DbCommand::Set { key, val }` (modeled as a reliable request). -/
def storeSet (s : Store) (key : String) (v : JText) : Store :=
  fun k => if k = key then some v else s k

/-- A store holding no record. -/
def emptyStore : Store := fun _ => none

/-- Function `shadow_version_compare` (aws_iot.rs lines 697-725): fetch the record at
`topic` from the store; if it exists and parses as an `AwsIotShadowAccept`
whose version is `>=` the incoming version, answer `false` (stale), otherwise
answer `true` (update).  The store request is modeled as reliable; the code
returns `Ok(true)` on a missing or unparseable record, and its only `Err`
case is a failed channel send, whose caller forwards unconditionally as
well. -/
def shadow_version_compare (store : Store) (topic : String) (version : Nat) :
    Bool :=
  match store topic with
  | some o =>
    match parseShadowText o with
    | some parsed => if parsed.version ≥ version then false else true
    | none => true
  | none => true

/-- Command `SubscribeCmd::Notify { topic, msg }`.  The `msg` field holds the value
passed to `serde_json::to_string`; the (injective) serialization to
characters is left at the boundary. -/
structure SubscribeNotify where
  topic : String
  msg : Json

/-- Function `post_iot_publish_msg` (aws_iot.rs lines 727-789): parse the payload as
an `AwsIotShadowAccept` (an unparseable payload makes the function return
`Err` before any effect); derive the flattened key `iotSubTopic topic`; when
`state.desired` is present, forward a `Notify` with topic
`{flattened}/state` and the serialized desired value exactly when
`shadow_version_compare` answers `true`; finally write the raw payload to
the store under the flattened key.  Channel sends and the store write are
modeled as reliable (the code's `Err` branch of the version compare - a
failed store request - also forwards, and a failed store write only makes
the function return `Err` after all other effects).  The result is `none`
for the `Err` return and otherwise the new store paired with the list of
forwarded notifications. -/
def post_iot_publish_msg (store : Store) (topic : String) (payload : JText) :
    Option (Store × List SubscribeNotify) :=
  match parseShadowText payload with
  | none => none
  | some shadow =>
    let sub_topic := iotSubTopic topic
    let notifies :=
      match shadow.state.desired with
      | some d =>
        if shadow_version_compare store sub_topic shadow.version then
          [{ topic := sub_topic ++ "/state", msg := d }]
        else []
      | none => []
    some (storeSet store sub_topic payload, notifies)

/-- The payload bytes of an inbound `Packet::Publish`, partitioned the way
`mqtt_dedicated_handle_iot` observes them: a zero-length payload, a
non-empty byte sequence that is not valid UTF-8 (on which
`std::str::from_utf8` fails), or a non-empty valid UTF-8 text. -/
inductive PublishPayload where
  | empty : PublishPayload
  | badUtf8 : PublishPayload
  | text (t : JText) : PublishPayload

/-- The `rumqttc::Packet` events reaching the dedicated receive loop:
publishes (with topic and payload) and all other packet kinds, which the
handler only logs. -/
inductive IotPacket where
  | publish (topic : String) (payload : PublishPayload) : IotPacket
  | other : IotPacket

/-- Function `mqtt_dedicated_handle_iot` (aws_iot.rs lines 521-572).  The result is
`none` exactly when the function returns `Err` - which makes the receive
loop of `mqtt_dedicated_start` (lines 443-449) break - and otherwise the
new store paired with the forwarded notifications.  A broadcast-channel
receive error is the `Err(e)` arm (lines 566-569); an empty payload returns
`Ok` at once (line 530); the three `rejected` topic checks and the
accepted-topic filter return `Ok` (lines 537-558); `std::str::from_utf8`
failure propagates `Err` (line 560); and the result of
`post_iot_publish_msg` is discarded (line 562), so its failure still yields
`Ok`. -/
def mqtt_dedicated_handle_iot (store : Store)
    (msg : Except Unit IotPacket) : Option (Store × List SubscribeNotify) :=
  match msg with
  | Except.error _ => none
  | Except.ok IotPacket.other => some (store, [])
  | Except.ok (IotPacket.publish topic payload) =>
    match payload with
    | PublishPayload.empty => some (store, [])
    | p =>
      if topicFind topic "/get/rejected" then some (store, [])
      else if topicFind topic "/update/rejected" then some (store, [])
      else if topicFind topic "/delete/rejected" then some (store, [])
      else if !(topicFind topic "/get/accepted" ||
                topicFind topic "/update/accepted") then some (store, [])
      else
        match p with
        | PublishPayload.badUtf8 => none
        | PublishPayload.text t =>
          match post_iot_publish_msg store topic t with
          | some r => some r
          | none => some (store, [])
        | PublishPayload.empty => some (store, [])

/-- The control skeleton of the retry loop of `mqtt_dedicated_create_start`
(aws_iot.rs lines 490-516) for a run in which no connection attempt exits
the function early (the `Ok` branch re-enters the loop after
`mqtt_dedicated_start` returns, and the `Err` branch only logs): each
iteration makes one connection attempt with the current `retry` value,
sleeps `retry * 30` seconds, increments `retry`, and breaks when `retry`
reaches `100`.  The first argument is fuel bounding the recursion; the loop
provably breaks before any fuel of at least `99` runs out when started from
`retry = 1`.  The result lists the `retry` value of every connection attempt
made, in order. -/
def dedicatedRetryAux : Nat → Nat → List Nat
  | 0, _ => []
  | Nat.succ fuel, retry =>
    retry :: (if retry + 1 = 100 then [] else dedicatedRetryAux fuel (retry + 1))

/-- The `retry` values of the connection attempts made by the loop of
`mqtt_dedicated_create_start`, which starts from `retry = 1`. -/
def dedicatedRetryAttempts : List Nat := dedicatedRetryAux 200 1

/-- The sleep durations (in seconds) performed after each connection
attempt: `retry * 30` with the `retry` value of that attempt. -/
def dedicatedRetrySleeps : List Nat := dedicatedRetryAttempts.map (fun r => r * 30)

/-- Enum `TopicType` (aws_iot.rs lines 574-578). -/
inductive TopicType where
  | raw (topic : String) : TopicType
  | shadowUpdate (topic : String) (thing : String) : TopicType

/-- Method `TopicType::to_string` (aws_iot.rs lines 580-596). -/
def TopicType.toBrokerTopic : TopicType → String
  | TopicType.raw topic => "$aws/" ++ topic
  | TopicType.shadowUpdate topic thing =>
    "$aws/things/" ++ thing ++ "/shadow/" ++ topic ++ "/update"

/-- Enum `AwsIotCmd` (aws_iot.rs lines 806-834): the local bridge commands. -/
inductive AwsIotCmd where
  | shadowUpdate (topic : String) (msg : JText) : AwsIotCmd
  | rawUpdate (topic : String) (msg : JText) : AwsIotCmd
  | exit : AwsIotCmd

/-- The payload handed to the broker publish by `mqtt_dedicated_handle_ipc`:
either the string serialization of a constructed JSON value, or the local
message's text passed through unchanged. -/
inductive BrokerPayload where
  | fromJson (j : Json) : BrokerPayload
  | passthrough (m : JText) : BrokerPayload

/-- Function `post_ipc_msg` (aws_iot.rs lines 598-648).  `secs` and `millis` are the
wall clock at the call (`SystemTime::now()` seconds since the epoch and the
sub-second milliseconds).  A `ShadowUpdate` whose `msg` is not valid JSON
makes `serde_json::from_str::<Value>` fail, propagated as `Err` (`none`);
`AwsIotCmd::Exit` returns `Err` by construction (line 646). -/
def post_ipc_msg (msg : AwsIotCmd) (thing : String) (secs millis : Nat) :
    Option (String × BrokerPayload) :=
  match msg with
  | AwsIotCmd.shadowUpdate topic m =>
    let t := (TopicType.shadowUpdate topic thing).toBrokerTopic
    match m.parsed with
    | none => none
    | some reported =>
      let client_token := toString secs ++ "." ++ toString millis
      some (t, BrokerPayload.fromJson (Json.obj
        [("state", Json.obj [("reported", reported)]),
         ("clientToken", Json.str client_token)]))
  | AwsIotCmd.rawUpdate topic m =>
    some ((TopicType.raw topic).toBrokerTopic, BrokerPayload.passthrough m)
  | AwsIotCmd.exit => none

/-- The broker interaction the provisioning receive task performs on a
subscription acknowledgment. -/
inductive ProvisionAction where
  | sub (topic : String) : ProvisionAction
  | pub (topic : String) (payload : String) : ProvisionAction

/-- The `Packet::SubAck` arm of `mqtt_provision_task` (aws_iot.rs lines
294-333): dispatch on the acknowledgment's packet id - the client assigns
packet ids `1, 2, 3, ...` to subscriptions in order, so the id equals the
acknowledgment's ordinal.  Ids `1`-`3` subscribe to the next topic of the
fixed sequence and every other id publishes an empty payload to the
certificate-create request topic. -/
def provision_suback_action (template : String) (pkid : Nat) : ProvisionAction :=
  match pkid with
  | 1 => ProvisionAction.sub "$aws/certificates/create/json/rejected"
  | 2 => ProvisionAction.sub
      ("$aws/provisioning-templates/" ++ template ++ "/provision/json/accepted")
  | 3 => ProvisionAction.sub
      ("$aws/provisioning-templates/" ++ template ++ "/provision/json/rejected")
  | _ => ProvisionAction.pub "$aws/certificates/create/json" ""

/-- Struct `AwsIotKeyCertificate` (aws_iot.rs lines 109-118), with the
`DateTime<Utc>` issue time modeled as a natural-number timestamp. -/
structure AwsIotKeyCertificate where
  certificate_id : String
  certificate_pem : String
  private_key : String
  certificate_ownership_token : String
  issue_time : Option Nat

/-- The content of a file written by the credential manager: the plain text
of a certificate or key, or the JSON serialization of the whole credential
(kept at the structure level; `serde_json` round-trips it faithfully). -/
inductive FileContent where
  | text (s : String) : FileContent
  | info (c : AwsIotKeyCertificate) : FileContent

/-- The filesystem seen through `tokio::fs`: path to content. -/
abbrev FileSystem := String → Option FileContent

/-- Write `fs::write` (modeled as always succeeding). -/
def fsWrite (fs : FileSystem) (path : String) (content : FileContent) :
    FileSystem :=
  fun p => if p = path then some content else fs p

/-- Replacing every occurrence of `pat` in a character list by `rep`,
scanning left to right (the semantics of Rust's `str::replace` for a
non-empty pattern; the callers only use the pattern `".pem"`).  The first
argument is recursion fuel; each step consumes at least one character, so
any fuel of at least the list's length yields the full replacement. -/
def replaceListAux (pat rep : List Char) : Nat → List Char → List Char
  | 0, l => l
  | _ + 1, [] => []
  | fuel + 1, c :: rest =>
    if pat ≠ [] ∧ pat.isPrefixOf (c :: rest) then
      rep ++ replaceListAux pat rep fuel (List.drop (pat.length - 1) rest)
    else
      c :: replaceListAux pat rep fuel rest

/-- Replacing every occurrence of `pat` by `rep`, left to right. -/
def replaceListAll (pat rep l : List Char) : List Char :=
  replaceListAux pat rep l.length l

/-- Rust's `str::replace(pat, rep)`. -/
def rustReplace (s pat rep : String) : String :=
  String.mk (replaceListAll pat.toList rep.toList s.toList)

/-- Method `AwsIotKeyCertificate::save` (aws_iot.rs lines 120-137): stamp `now` as
the issue time, write the certificate and private key to their paths, write
the JSON serialization of the updated credential to the sibling `.info`
path, and return the certificate id with the stamped time.  File writes are
modeled as reliable. -/
def AwsIotKeyCertificate.save (c : AwsIotKeyCertificate) (now : Nat)
    (cert_path private_path : String) (fs : FileSystem) :
    FileSystem × (String × Nat) :=
  let c2 := { c with issue_time := some now }
  let fs1 := fsWrite fs cert_path (FileContent.text c.certificate_pem)
  let fs2 := fsWrite fs1 private_path (FileContent.text c.private_key)
  let info_path := rustReplace cert_path ".pem" ".info"
  (fsWrite fs2 info_path (FileContent.info c2), (c.certificate_id, now))

/-- Method `AwsIotKeyCertificate::reload` (aws_iot.rs lines 139-148): read the
sibling `.info` file and return the cached certificate id and issue time.
`none` models both `Err` returns (file unreadable, not a serialized
credential) and the `unwrap` panic on a credential without an issue time. -/
def AwsIotKeyCertificate.reload (fs : FileSystem) (cert_path : String) :
    Option (String × Nat) :=
  let info_path := rustReplace cert_path ".pem" ".info"
  match fs info_path with
  | some (FileContent.info c) =>
    match c.issue_time with
    | some t => some (c.certificate_id, t)
    | none => none
  | _ => none

/-- One inbound shadow message processed at the point where the receive
loop discards the result of `post_iot_publish_msg` (aws_iot.rs line 562):
a failed call leaves the store unchanged and forwards nothing. -/
def engineStep (store : Store) (topic : String) (m : JText) :
    Store × List SubscribeNotify :=
  match post_iot_publish_msg store topic m with
  | some r => r
  | none => (store, [])

/-- The version under which `post_iot_publish_msg` applies (forwards the
desired delta of) a message in the given store: `some v` exactly when the
payload parses with version `v`, `state.desired` is present, and
`shadow_version_compare` accepts the version. -/
def appliedVersion (store : Store) (topic : String) (m : JText) : Option Nat :=
  match parseShadowText m with
  | none => none
  | some shadow =>
    match shadow.state.desired with
    | none => none
    | some _ =>
      if shadow_version_compare store (iotSubTopic topic) shadow.version then
        some shadow.version
      else none

/-- The versions (in order) of the messages applied while the engine
processes a sequence of inbound payloads on one topic. -/
def runApplied (topic : String) (store : Store) : List JText → List Nat
  | [] => []
  | m :: rest =>
    (match appliedVersion store topic m with
     | some v => [v]
     | none => []) ++ runApplied topic (engineStep store topic m).1 rest

/-- The versions of the messages of a sequence that parse as
`AwsIotShadowAccept`, in arrival order. -/
def parsedVersions : List JText → List Nat
  | [] => []
  | m :: rest =>
    (match parseShadowText m with
     | some sh => [sh.version]
     | none => []) ++ parsedVersions rest

/-! ### Shared lemmas -/

/-- Folding segments onto a root with `/` separators only ever appends to
the root, so the root stays a prefix of the result. -/
lemma foldl_slash_root (xs : List String) (a : String) :
    ∃ s, List.foldl (fun sum i => sum ++ "/" ++ i) a xs = a ++ s := by
  induction xs generalizing a with
  | nil => exact ⟨"", by simp⟩
  | cons x xs ih =>
    obtain ⟨s, hs⟩ := ih (a ++ "/" ++ x)
    exact ⟨"/" ++ x ++ s, by simpa [String.append_assoc] using hs⟩

/-- A message that parses as a shadow document is always written to the
store under the flattened key, whatever the forwarding decision. -/
lemma engineStep_parsed (store : Store) (topic : String) (m : JText)
    (sh : AwsIotShadowAccept) (h : parseShadowText m = some sh) :
    (engineStep store topic m).1 = storeSet store (iotSubTopic topic) m := by
  unfold engineStep post_iot_publish_msg
  rw [h]

/-- A message that fails to parse makes `post_iot_publish_msg` return `Err`
before any effect, so the receive loop leaves the store unchanged and
forwards nothing. -/
lemma engineStep_unparsed (store : Store) (topic : String) (m : JText)
    (h : parseShadowText m = none) :
    engineStep store topic m = (store, []) := by
  unfold engineStep post_iot_publish_msg
  rw [h]

/-- Reading back the key just written. -/
lemma storeSet_self (store : Store) (key : String) (v : JText) :
    storeSet store key v key = some v := by
  simp [storeSet]

/-- When the record stored at the key parses, `shadow_version_compare`
answers `true` exactly for a strictly newer incoming version. -/
lemma shadow_version_compare_stored (store : Store) (key : String)
    (version : Nat) (t : JText) (sh : AwsIotShadowAccept)
    (hs : store key = some t) (hp : parseShadowText t = some sh) :
    shadow_version_compare store key version = true ↔ sh.version < version := by
  by_cases h : sh.version ≥ version <;>
    (simp [shadow_version_compare, hs, hp, h]; try omega)

/-- The versions of the messages the engine applies are versions of parsed
messages. -/
lemma parsedVersions_cons_parsed (m : JText) (rest : List JText)
    (sh : AwsIotShadowAccept) (h : parseShadowText m = some sh) :
    parsedVersions (m :: rest) = sh.version :: parsedVersions rest := by
  simp [parsedVersions, h]

/-- Once the record stored at the flattened key parses with version `v0`
and every later parsed incoming version is chained above `v0`, every
version the engine subsequently applies is strictly greater than `v0`:
an application needs a version strictly above the stored one, and every
parsed message (applied or not) overwrites the stored record with its own,
chained, version. -/
lemma runApplied_gt_stored (topic : String) (msgs : List JText) :
    ∀ (store : Store) (t : JText) (sh : AwsIotShadowAccept),
      store (iotSubTopic topic) = some t →
      parseShadowText t = some sh →
      List.Chain' (· ≤ ·) (sh.version :: parsedVersions msgs) →
      ∀ v ∈ runApplied topic store msgs, sh.version < v := by
  induction msgs with
  | nil => intro store t sh _ _ _ v hv; simp [runApplied] at hv
  | cons m rest ih =>
    intro store t sh hs hp hc v hv
    rw [runApplied, List.mem_append] at hv
    cases hm : parseShadowText m with
    | none =>
      rw [parsedVersions, hm] at hc
      simp only [appliedVersion, hm] at hv
      rcases hv with hv0 | hv'
      · simp at hv0
      · rw [engineStep_unparsed store topic m hm] at hv'
        exact ih store t sh hs hp hc v hv'
    | some shm =>
      rw [parsedVersions_cons_parsed m rest shm hm, List.chain'_cons] at hc
      obtain ⟨hle, hc2⟩ := hc
      have hs' : (engineStep store topic m).1 (iotSubTopic topic) = some m := by
        rw [engineStep_parsed store topic m shm hm]
        exact storeSet_self _ _ _
      rcases hv with hv0 | hv'
      · simp only [appliedVersion, hm] at hv0
        cases hd : shm.state.desired with
        | none => simp [hd] at hv0
        | some d =>
          rw [hd] at hv0
          by_cases hcmp :
              shadow_version_compare store (iotSubTopic topic) shm.version = true
          · simp [hcmp] at hv0
            subst hv0
            exact (shadow_version_compare_stored store (iotSubTopic topic)
              shm.version t sh hs hp).mp hcmp
          · simp [hcmp] at hv0
      · have := ih (engineStep store topic m).1 m shm hs' hm hc2 v hv'
        omega

/-! ### Sample data used by concrete instances -/

/-- A well-formed shadow-accepted document with `state.desired` present and
the given version. -/
def sampleShadowJson (v : Int) : Json :=
  Json.obj [("state", Json.obj [("desired", Json.num 1)]),
            ("metadata", Json.obj []),
            ("version", Json.num v),
            ("timestamp", Json.num 0)]

/-- The text of `sampleShadowJson v`. -/
def samplePayload (v : Int) : JText :=
  { raw := "sample", parsed := some (sampleShadowJson v) }

/-- The parse of `sampleShadowJson v` for `0 ≤ v < 65536`. -/
def sampleShadowDoc (v : Nat) : AwsIotShadowAccept :=
  { state := { desired := some (Json.num 1), reported := none, delta := none },
    metadata := { desired := none, reported := none, delta := none },
    version := v, timestamp := 0 }

/-- A stored record that does not parse as a shadow document. -/
def junkText : JText := { raw := "junk", parsed := none }

/-! ### Claim theorems -/

/-- C2 (counterexample): the retry loop of `mqtt_dedicated_create_start`
does not behave as claimed.  A full run in which every connection attempt
fails makes exactly `99` connection attempts - it never makes an attempt
with `retry = 100`: after the 99th attempt `retry` is incremented to `100`
and the loop breaks, so the loop does **not** still retry after 99 failed
attempts and there is no 100th attempt on which to terminate. -/
theorem C2_counterexample_99_attempts :
    dedicatedRetryAttempts.length = 99 ∧
    (100 : Nat) ∉ dedicatedRetryAttempts := by decide

/-- C2 (amended): the retry loop starts with `retry = 1` and on each
connection attempt ending sleeps `retry * 30` seconds and increments
`retry`; after exactly 98 failed attempts it still retries, the 99th
attempt is the last one (when `retry` reaches `100` the loop breaks and
reports a fatal error), and it never makes a 100th connection attempt:
the attempts performed carry the retry values `1, 2, ..., 99` in order
and the sleep after the attempt with value `r` lasts `r * 30` seconds. -/
theorem C2_amended_retry_schedule :
    dedicatedRetryAttempts = List.range' 1 99 ∧
    dedicatedRetrySleeps = (List.range' 1 99).map (fun r => r * 30) := by decide

/-- C8: `Save` followed by `Reload` on the same certificate path returns
exactly the certificate id and issue time that `Save` returned, for every
credential, timestamp, pair of paths, and starting filesystem. -/
theorem C8_save_reload_roundtrip (c : AwsIotKeyCertificate) (now : Nat)
    (cert_path private_path : String) (fs : FileSystem) :
    AwsIotKeyCertificate.reload
        (AwsIotKeyCertificate.save c now cert_path private_path fs).1 cert_path =
      some (AwsIotKeyCertificate.save c now cert_path private_path fs).2 := by
  simp [AwsIotKeyCertificate.save, AwsIotKeyCertificate.reload, fsWrite]

/-- C9: in the provisioning network flow, with subscription packet ids
assigned sequentially from `1` so that the `n`-th acknowledgment carries
packet id `n`: the 1st acknowledgment subscribes to the certificate-create
rejected topic, the 2nd to the provisioning-template accepted topic, the
3rd to the provisioning-template rejected topic, and the 4th and every
subsequent acknowledgment publishes an empty payload to the
certificate-create request topic. -/
theorem C9_provision_suback_sequence (template : String) (n : Nat) :
    provision_suback_action template 1 =
      ProvisionAction.sub "$aws/certificates/create/json/rejected" ∧
    provision_suback_action template 2 =
      ProvisionAction.sub
        ("$aws/provisioning-templates/" ++ template ++ "/provision/json/accepted") ∧
    provision_suback_action template 3 =
      ProvisionAction.sub
        ("$aws/provisioning-templates/" ++ template ++ "/provision/json/rejected") ∧
    (4 ≤ n →
      provision_suback_action template n =
        ProvisionAction.pub "$aws/certificates/create/json" "") := by
  refine ⟨rfl, rfl, rfl, fun h => ?_⟩
  obtain ⟨m, rfl⟩ : ∃ m, n = m + 4 := ⟨n - 4, by omega⟩
  rfl

/-- C9 (witness): the 5th acknowledgment, under the default template,
publishes the empty payload to the certificate-create request topic. -/
theorem C9_witness_fifth_ack :
    provision_suback_action "LongDongPreHookReal" 5 =
      ProvisionAction.pub "$aws/certificates/create/json" "" :=
  (C9_provision_suback_sequence "LongDongPreHookReal" 5).2.2.2 (by omega)

/-- C5: outbound translation of local commands.  A `ShadowUpdate` whose
message parses as JSON value `j` publishes to
`$aws/things/{thing}/shadow/{topic}/update` the object
`{"state": {"reported": j}, "clientToken": "{secs}.{millis}"}`, and fails
exactly when the message is not valid JSON; a `RawUpdate` publishes to
`$aws/{topic}` with the message passed through unchanged. -/
theorem C5_outbound_translation (thing topic : String) (m : JText)
    (secs millis : Nat) :
    (∀ j, m.parsed = some j →
      post_ipc_msg (AwsIotCmd.shadowUpdate topic m) thing secs millis =
        some ("$aws/things/" ++ thing ++ "/shadow/" ++ topic ++ "/update",
          BrokerPayload.fromJson (Json.obj
            [("state", Json.obj [("reported", j)]),
             ("clientToken",
              Json.str (toString secs ++ "." ++ toString millis))]))) ∧
    (m.parsed = none →
      post_ipc_msg (AwsIotCmd.shadowUpdate topic m) thing secs millis = none) ∧
    post_ipc_msg (AwsIotCmd.rawUpdate topic m) thing secs millis =
      some ("$aws/" ++ topic, BrokerPayload.passthrough m) := by
  refine ⟨fun j hj => ?_, fun hj => ?_, rfl⟩
  · simp [post_ipc_msg, hj, TopicType.toBrokerTopic]
  · simp [post_ipc_msg, hj]

/-- A local-bus shadow message whose payload is the JSON object
`{"y": 2}`. -/
def sampleIpcMsg : JText :=
  { raw := "y2", parsed := some (Json.obj [("y", Json.num 2)]) }

/-- C5 (witness): the scenario message on channel suffix `name1/update`
with payload `{"y": 2}` at epoch second 1700000000 and 5 sub-second
milliseconds. -/
theorem C5_witness_shadow_update :
    post_ipc_msg (AwsIotCmd.shadowUpdate "name1/update" sampleIpcMsg)
        "dev1" 1700000000 5 =
      some ("$aws/things/dev1/shadow/name1/update/update",
        BrokerPayload.fromJson (Json.obj
          [("state", Json.obj [("reported", Json.obj [("y", Json.num 2)])]),
           ("clientToken", Json.str "1700000000.5")])) :=
  (C5_outbound_translation "dev1" "name1/update" sampleIpcMsg 1700000000 5).1
    (Json.obj [("y", Json.num 2)]) rfl

/-- C4: for every message the engine accepts, the store write happens at
the flattened key `iotSubTopic topic`; the flattened key always extends the
fixed root `aws/kap`; the claim's example topic
`$aws/things/dev1/shadow/name1/update/accepted` yields the key
`aws/kap/shadow/name1/update`; and an eight-segment topic shows the
drop-three/take-three slicing exactly. -/
theorem C4_flattened_key :
    (∀ (store : Store) (topic : String) (payload : JText)
       (r : Store × List SubscribeNotify),
       post_iot_publish_msg store topic payload = some r →
       r.1 = storeSet store (iotSubTopic topic) payload) ∧
    (∀ topic : String, ∃ rest : String, iotSubTopic topic = "aws/kap" ++ rest) ∧
    iotSubTopic "$aws/things/dev1/shadow/name1/update/accepted" =
      "aws/kap/shadow/name1/update" ∧
    iotSubTopic "a/b/c/d/e/f/g/h" = "aws/kap/d/e/f" := by
  refine ⟨?_, ?_, by decide, by decide⟩
  · intro store topic payload r hr
    cases hp : parseShadowText payload with
    | none => rw [post_iot_publish_msg, hp] at hr; exact absurd hr (by simp)
    | some shadow =>
      rw [post_iot_publish_msg, hp] at hr
      simp only [Option.some.injEq] at hr
      rw [← hr]
  · intro topic
    exact foldl_slash_root _ _

/-- C4 (witness): a concrete accepted message lands in the store at its
flattened key. -/
theorem C4_witness_store_write :
    ∃ r, post_iot_publish_msg emptyStore
        "$aws/things/dev1/shadow/name1/update/accepted" (samplePayload 7) =
        some r ∧
      r.1 = storeSet emptyStore
        (iotSubTopic "$aws/things/dev1/shadow/name1/update/accepted")
        (samplePayload 7) :=
  ⟨_, rfl, C4_flattened_key.1 emptyStore _ (samplePayload 7) _ rfl⟩

/-- C1: for an inbound message whose payload parses as a shadow document
with `state.desired` present, and whose prior stored record (if any) parses
as a shadow document: a `Notify` is forwarded if and only if no prior
record exists at the flattened key or the prior record's version is
strictly less than the incoming version; in either case the full raw
payload is written to the store under the flattened key, overwriting the
previous record; and any forwarded notification is exactly one `Notify` on
`{flattenedKey}/state` carrying the desired value. -/
theorem C1_shadow_forward_iff_newer (store : Store) (topic : String)
    (payload : JText) (shadow : AwsIotShadowAccept) (d : Json)
    (hparse : parseShadowText payload = some shadow)
    (hdes : shadow.state.desired = some d)
    (hprior : ∀ t, store (iotSubTopic topic) = some t →
      (parseShadowText t).isSome) :
    ∃ notifies,
      post_iot_publish_msg store topic payload =
        some (storeSet store (iotSubTopic topic) payload, notifies) ∧
      (notifies ≠ [] ↔
        (store (iotSubTopic topic) = none ∨
         ∃ t prev, store (iotSubTopic topic) = some t ∧
           parseShadowText t = some prev ∧ prev.version < shadow.version)) ∧
      (notifies = [] ∨
       notifies = [{ topic := iotSubTopic topic ++ "/state", msg := d }]) := by
  refine ⟨if shadow_version_compare store (iotSubTopic topic) shadow.version
          then [{ topic := iotSubTopic topic ++ "/state", msg := d }]
          else [], ?_, ?_, ?_⟩
  · simp [post_iot_publish_msg, hparse, hdes]
  · by_cases hc :
        shadow_version_compare store (iotSubTopic topic) shadow.version = true
    · simp only [hc, if_true, ne_eq, List.cons_ne_self]
      refine iff_of_true (by simp) ?_
      cases hs : store (iotSubTopic topic) with
      | none => exact Or.inl rfl
      | some t =>
        obtain ⟨prev, hprev⟩ := Option.isSome_iff_exists.mp (hprior t hs)
        exact Or.inr ⟨t, prev, rfl, hprev,
          (shadow_version_compare_stored store (iotSubTopic topic)
            shadow.version t prev hs hprev).mp hc⟩
    · have hcf :
          shadow_version_compare store (iotSubTopic topic) shadow.version
            = false := by
        revert hc
        cases shadow_version_compare store (iotSubTopic topic) shadow.version <;>
          simp
      rw [hcf]
      simp only [if_false, ne_eq, not_true_eq_false]
      refine iff_of_false (by simp) ?_
      rintro (hnone | ⟨t, prev, hs, hprev, hlt⟩)
      · rw [shadow_version_compare, hnone] at hcf
        exact absurd hcf (by simp)
      · exact absurd ((shadow_version_compare_stored store (iotSubTopic topic)
          shadow.version t prev hs hprev).mpr hlt) (by simp [hcf])
  · by_cases hc :
        shadow_version_compare store (iotSubTopic topic) shadow.version = true <;>
      simp [hc]

/-- C1 (witness): the scenario message of version 5 against a store with no
prior record at the flattened key. -/
theorem C1_witness_fresh_store :
    ∃ notifies,
      post_iot_publish_msg emptyStore
          "$aws/things/dev1/shadow/name1/update/accepted" (samplePayload 5) =
        some (storeSet emptyStore
          (iotSubTopic "$aws/things/dev1/shadow/name1/update/accepted")
          (samplePayload 5), notifies) ∧
      (notifies ≠ [] ↔
        (emptyStore
          (iotSubTopic "$aws/things/dev1/shadow/name1/update/accepted") = none ∨
         ∃ t prev, emptyStore
             (iotSubTopic "$aws/things/dev1/shadow/name1/update/accepted") =
               some t ∧
           parseShadowText t = some prev ∧
           prev.version < (sampleShadowDoc 5).version)) ∧
      (notifies = [] ∨
       notifies = [{ topic :=
           iotSubTopic "$aws/things/dev1/shadow/name1/update/accepted"
             ++ "/state", msg := Json.num 1 }]) :=
  C1_shadow_forward_iff_newer emptyStore
    "$aws/things/dev1/shadow/name1/update/accepted" (samplePayload 5)
    (sampleShadowDoc 5) (Json.num 1) rfl rfl
    (fun t h => by simp [emptyStore] at h)

/-- C10: when the record previously stored at the flattened key exists but
does not parse as a shadow document, an incoming document with
`state.desired` present is forwarded regardless of any version
relationship, and the raw payload replaces the unparseable record. -/
theorem C10_unparseable_prior_forwards (store : Store) (topic : String)
    (payload t : JText) (shadow : AwsIotShadowAccept) (d : Json)
    (hstored : store (iotSubTopic topic) = some t)
    (hbad : parseShadowText t = none)
    (hparse : parseShadowText payload = some shadow)
    (hdes : shadow.state.desired = some d) :
    post_iot_publish_msg store topic payload =
      some (storeSet store (iotSubTopic topic) payload,
        [{ topic := iotSubTopic topic ++ "/state", msg := d }]) := by
  have hc : shadow_version_compare store (iotSubTopic topic) shadow.version
      = true := by
    simp [shadow_version_compare, hstored, hbad]
  simp [post_iot_publish_msg, hparse, hdes, hc]

/-- C10 (witness): a version-5 document against a stored record that is not
valid JSON. -/
theorem C10_witness_junk_record :
    post_iot_publish_msg
        (storeSet emptyStore
          (iotSubTopic "$aws/things/dev1/shadow/name1/get/accepted") junkText)
        "$aws/things/dev1/shadow/name1/get/accepted" (samplePayload 5) =
      some (storeSet
          (storeSet emptyStore
            (iotSubTopic "$aws/things/dev1/shadow/name1/get/accepted") junkText)
          (iotSubTopic "$aws/things/dev1/shadow/name1/get/accepted")
          (samplePayload 5),
        [{ topic := iotSubTopic "$aws/things/dev1/shadow/name1/get/accepted"
             ++ "/state", msg := Json.num 1 }]) :=
  C10_unparseable_prior_forwards _ _ (samplePayload 5) junkText
    (sampleShadowDoc 5) (Json.num 1) (storeSet_self _ _ _) rfl rfl rfl

/-- C6: every inbound publish whose topic contains `/get/rejected`,
`/update/rejected`, or `/delete/rejected`, every publish with an empty
payload, and every publish whose topic contains neither `/get/accepted` nor
`/update/accepted`, is dropped by the engine: no `Notify` is forwarded,
the store is unchanged, and the handler returns success. -/
theorem C6_rejected_dropped (store : Store) (topic : String)
    (payload : PublishPayload)
    (h : topicFind topic "/get/rejected" = true ∨
         topicFind topic "/update/rejected" = true ∨
         topicFind topic "/delete/rejected" = true ∨
         payload = PublishPayload.empty ∨
         (topicFind topic "/get/accepted" = false ∧
          topicFind topic "/update/accepted" = false)) :
    mqtt_dedicated_handle_iot store
        (Except.ok (IotPacket.publish topic payload)) = some (store, []) := by
  cases payload with
  | empty => rfl
  | badUtf8 =>
    simp only [mqtt_dedicated_handle_iot]
    split_ifs <;> simp_all
  | text t =>
    simp only [mqtt_dedicated_handle_iot]
    split_ifs <;> simp_all

/-- C6 (witness): a non-empty message on an `/update/rejected` topic is
dropped without error and without touching the store. -/
theorem C6_witness_update_rejected :
    mqtt_dedicated_handle_iot emptyStore
        (Except.ok (IotPacket.publish
          "$aws/things/dev1/shadow/name1/update/rejected"
          (PublishPayload.text (samplePayload 5)))) =
      some (emptyStore, []) :=
  C6_rejected_dropped emptyStore "$aws/things/dev1/shadow/name1/update/rejected"
    (PublishPayload.text (samplePayload 5)) (Or.inr (Or.inl (by decide)))

/-- C3 (counterexample): a single inbound broker publish *can* terminate
the dedicated receive task.  A publish on an accepted shadow topic whose
non-empty payload is not valid UTF-8 makes `std::str::from_utf8` fail; the
`?` operator propagates the error out of `mqtt_dedicated_handle_iot`
(aws_iot.rs line 560), and the receive loop of `mqtt_dedicated_start`
breaks on that error (lines 445-449). -/
theorem C3_counterexample_bad_utf8_breaks :
    mqtt_dedicated_handle_iot emptyStore
        (Except.ok (IotPacket.publish
          "$aws/things/dev1/shadow/name1/get/accepted"
          PublishPayload.badUtf8)) = none := rfl

/-- C3 (amended): handling an inbound broker publish ends the receive task
(returns the error on which the loop of `mqtt_dedicated_start` breaks)
**exactly** when the payload is a non-empty byte sequence that is not valid
UTF-8 and the topic passes all the filters (no rejected marker, and a
`/get/accepted` or `/update/accepted` marker present); every other publish
- malformed JSON, unexpected topics, empty payloads - is handled without
breaking the loop. -/
theorem C3_amended_only_utf8_breaks (store : Store) (topic : String)
    (payload : PublishPayload) :
    mqtt_dedicated_handle_iot store
        (Except.ok (IotPacket.publish topic payload)) = none ↔
      (payload = PublishPayload.badUtf8 ∧
       topicFind topic "/get/rejected" = false ∧
       topicFind topic "/update/rejected" = false ∧
       topicFind topic "/delete/rejected" = false ∧
       (topicFind topic "/get/accepted" = true ∨
        topicFind topic "/update/accepted" = true)) := by
  cases payload with
  | empty => simp [mqtt_dedicated_handle_iot]
  | badUtf8 =>
    simp only [mqtt_dedicated_handle_iot]
    split_ifs with h1 h2 h3 h4
    · simp_all
    · simp_all
    · simp_all
    · simp_all
    · by_cases hA : topicFind topic "/get/accepted" = true <;> simp_all
  | text t =>
    simp only [mqtt_dedicated_handle_iot]
    split_ifs with h1 h2 h3 h4
    · simp_all
    · simp_all
    · simp_all
    · simp_all
    · cases hp : post_iot_publish_msg store topic t <;> simp_all

/-- C7 (counterexample): a shadow document is **not** applied at most once
per version per sub-topic.  Processing, from an empty store, the sequence
of versions `5, 3, 5` (all with `state.desired` present, on one sub-topic)
applies version `5` twice: the stale version-3 message is not forwarded but
still overwrites the stored comparison baseline, so the second version-5
message again exceeds the stored version and is forwarded again. -/
theorem C7_counterexample_reapplied_version :
    runApplied "$aws/things/dev1/shadow/name1/update/accepted" emptyStore
        [samplePayload 5, samplePayload 3, samplePayload 5] = [5, 5] ∧
    ¬ (runApplied "$aws/things/dev1/shadow/name1/update/accepted" emptyStore
        [samplePayload 5, samplePayload 3, samplePayload 5]).Nodup := by
  exact ⟨by decide, by decide⟩

/-- C7 (amended): over every sequence of inbound shadow messages on the
same sub-topic **whose successfully parsed versions arrive in
non-decreasing order**, a shadow document is applied at most once per
version, from any starting store: the list of applied versions has no
duplicate.  (In general a stale lower-version message overwrites the
stored baseline and allows an already-applied version to be re-applied,
as the counterexample shows.) -/
theorem C7_amended_monotone_runs (topic : String) (msgs : List JText)
    (store : Store)
    (hchain : List.Chain' (· ≤ ·) (parsedVersions msgs)) :
    (runApplied topic store msgs).Nodup := by
  induction msgs generalizing store with
  | nil => simp [runApplied]
  | cons m rest ih =>
    rw [runApplied]
    cases hm : parseShadowText m with
    | none =>
      rw [parsedVersions, hm] at hchain
      simp only [appliedVersion, hm]
      rw [engineStep_unparsed store topic m hm]
      simpa using ih _ (by simpa using hchain)
    | some shm =>
      rw [parsedVersions_cons_parsed m rest shm hm] at hchain
      have hs' : (engineStep store topic m).1 (iotSubTopic topic) = some m := by
        rw [engineStep_parsed store topic m shm hm]
        exact storeSet_self _ _ _
      have htail : (runApplied topic (engineStep store topic m).1 rest).Nodup :=
        ih _ hchain.tail
      simp only [appliedVersion, hm]
      cases hd : shm.state.desired with
      | none => simpa using htail
      | some d =>
        by_cases hcmp :
            shadow_version_compare store (iotSubTopic topic) shm.version = true
        · simp only [hcmp, if_true, List.singleton_append, List.nodup_cons]
          refine ⟨fun hmem => ?_, htail⟩
          have := runApplied_gt_stored topic rest (engineStep store topic m).1
            m shm hs' hm hchain shm.version hmem
          omega
        · have hcf : shadow_version_compare store (iotSubTopic topic)
              shm.version = false := by
            revert hcmp
            cases shadow_version_compare store (iotSubTopic topic) shm.version <;>
              simp
          rw [hcf]
          simpa using htail

/-- C7 (witness): a run of two distinct increasing versions from an empty
store applies each version at most once. -/
theorem C7_witness_two_versions :
    (runApplied "$aws/things/dev1/shadow/name1/update/accepted" emptyStore
      [samplePayload 3, samplePayload 5]).Nodup :=
  C7_amended_monotone_runs "$aws/things/dev1/shadow/name1/update/accepted"
    [samplePayload 3, samplePayload 5] emptyStore
    (by
      have h : parsedVersions [samplePayload 3, samplePayload 5] = [3, 5] := rfl
      rw [h]
      exact List.chain'_cons.mpr ⟨by omega, List.chain'_singleton 5⟩)
